import Mathlib

/-!
Verification development for the ebs-autoscale volume lifecycle engine.

The Go source (package `ebs_autoscale`) is shallowly embedded below:
pure functions become Lean functions, the EC2 client and the local
filesystem are modelled as explicit response oracles, `int32` arithmetic
is `Int` with explicit wrapping where Go overflows, and fallible Go
functions return `Except`/`Option`.  A trace of issued remote API calls
is threaded through the protocol functions so that claims of the form
"no remote call is made" are statable.
-/

namespace EbsAutoscale

/-- Wrapping into the `int32` range, mirroring Go two's-complement `int32`
arithmetic: apply at every Go arithmetic operation that can overflow. -/
def wrap32 (x : Int) : Int := (x + 2 ^ 31) % 2 ^ 32 - 2 ^ 31

/-- The value range of a Go `int32` variable. -/
def int32Range (x : Int) : Prop := -2 ^ 31 ≤ x ∧ x < 2 ^ 31

instance (x : Int) : Decidable (int32Range x) := by
  unfold int32Range; infer_instance

/-! ## MD5 (Go `crypto/md5` + `encoding/hex`, used by `Md5String` in the repo)

A faithful executable MD5 over byte lists (bytes as `Nat < 256`), so that
the derived `ebs-autoscale-id` really is the MD5 hex digest of the mount
point, as `Md5String` in the source computes via `md5.Sum` and
`hex.EncodeToString`. -/

/-- UTF-8 encoding of one Unicode scalar value (Go `[]byte(s)` semantics). -/
def utf8EncodeChar (c : Nat) : List Nat :=
  if c < 0x80 then [c]
  else if c < 0x800 then [0xC0 + c / 0x40, 0x80 + c % 0x40]
  else if c < 0x10000 then
    [0xE0 + c / 0x1000, 0x80 + (c / 0x40) % 0x40, 0x80 + c % 0x40]
  else
    [0xF0 + c / 0x40000, 0x80 + (c / 0x1000) % 0x40, 0x80 + (c / 0x40) % 0x40, 0x80 + c % 0x40]

/-- The UTF-8 bytes of a string, Go `[]byte(s)`. -/
def strBytes (s : String) : List Nat :=
  (s.data.map Char.toNat).foldr (fun c acc => utf8EncodeChar c ++ acc) []

/-- Left rotation of a 32-bit word held in a `Nat`. -/
def rotl32 (x n : Nat) : Nat := (x * 2 ^ n + x / 2 ^ (32 - n)) % 2 ^ 32

/-- Bit `i` of `x`. -/
def bitAt (x i : Nat) : Nat := x / 2 ^ i % 2

/-- Bitwise AND on 32-bit words, written arithmetically so that it reduces
structurally. -/
def land32 (x y : Nat) : Nat :=
  (List.range 32).foldl (fun acc i => acc + min (bitAt x i) (bitAt y i) * 2 ^ i) 0

/-- Bitwise OR on 32-bit words. -/
def lor32 (x y : Nat) : Nat :=
  (List.range 32).foldl (fun acc i => acc + max (bitAt x i) (bitAt y i) * 2 ^ i) 0

/-- Bitwise XOR on 32-bit words. -/
def xor32 (x y : Nat) : Nat :=
  (List.range 32).foldl (fun acc i => acc + (bitAt x i + bitAt y i) % 2 * 2 ^ i) 0

/-- The 64 MD5 sine-derived round constants. -/
def md5K : List Nat :=
  [3614090360, 3905402710, 606105819, 3250441966, 4118548399, 1200080426,
   2821735955, 4249261313, 1770035416, 2336552879, 4294925233, 2304563134,
   1804603682, 4254626195, 2792965006, 1236535329, 4129170786, 3225465664,
   643717713, 3921069994, 3593408605, 38016083, 3634488961, 3889429448,
   568446438, 3275163606, 4107603335, 1163531501, 2850285829, 4243563512,
   1735328473, 2368359562, 4294588738, 2272392833, 1839030562, 4259657740,
   2763975236, 1272893353, 4139469664, 3200236656, 681279174, 3936430074,
   3572445317, 76029189, 3654602809, 3873151461, 530742520, 3299628645,
   4096336452, 1126891415, 2878612391, 4237533241, 1700485571, 2399980690,
   4293915773, 2240044497, 1873313359, 4264355552, 2734768916, 1309151649,
   4149444226, 3174756917, 718787259, 3951481745]

/-- The 64 MD5 per-round left-rotation amounts. -/
def md5S : List Nat :=
  [7, 12, 17, 22, 7, 12, 17, 22, 7, 12, 17, 22, 7, 12, 17, 22,
   5, 9, 14, 20, 5, 9, 14, 20, 5, 9, 14, 20, 5, 9, 14, 20,
   4, 11, 16, 23, 4, 11, 16, 23, 4, 11, 16, 23, 4, 11, 16, 23,
   6, 10, 15, 21, 6, 10, 15, 21, 6, 10, 15, 21, 6, 10, 15, 21]

/-- The MD5 nonlinear mixing function for round `i`. -/
def md5F (i b c d : Nat) : Nat :=
  if i < 16 then lor32 (land32 b c) (land32 (2 ^ 32 - 1 - b) d)
  else if i < 32 then lor32 (land32 d b) (land32 (2 ^ 32 - 1 - d) c)
  else if i < 48 then xor32 b (xor32 c d)
  else xor32 c (lor32 b (2 ^ 32 - 1 - d))

/-- The MD5 message-word index for round `i`. -/
def md5G (i : Nat) : Nat :=
  if i < 16 then i
  else if i < 32 then (5 * i + 1) % 16
  else if i < 48 then (3 * i + 5) % 16
  else (7 * i) % 16

/-- One MD5 round on the state `(a, b, c, d)` with message words `M`. -/
def md5Round (M : List Nat) (st : Nat × Nat × Nat × Nat) (i : Nat) :
    Nat × Nat × Nat × Nat :=
  let a := st.1; let b := st.2.1; let c := st.2.2.1; let d := st.2.2.2
  let f := (md5F i b c d + a + md5K.getD i 0 + M.getD (md5G i) 0) % 2 ^ 32
  (d, (b + rotl32 f (md5S.getD i 0)) % 2 ^ 32, b, c)

/-- Process one 64-byte block (given as 16 little-endian words). -/
def md5ProcessBlock (h : Nat × Nat × Nat × Nat) (M : List Nat) :
    Nat × Nat × Nat × Nat :=
  let r := (List.range 64).foldl (md5Round M) h
  ((h.1 + r.1) % 2 ^ 32, (h.2.1 + r.2.1) % 2 ^ 32,
   (h.2.2.1 + r.2.2.1) % 2 ^ 32, (h.2.2.2 + r.2.2.2) % 2 ^ 32)

/-- Group a byte list into 32-bit little-endian words. -/
def bytesToWords : List Nat → List Nat
  | b0 :: b1 :: b2 :: b3 :: rest =>
    (b0 + b1 * 2 ^ 8 + b2 * 2 ^ 16 + b3 * 2 ^ 24) :: bytesToWords rest
  | _ => []

/-- Split a byte list into 64-byte chunks (structural recursion on a fuel
bound of one chunk per remaining element, so terms reduce definitionally;
`l.length` fuel always suffices since each step consumes at least one
element). -/
def chunksOf64Fuel : Nat → List Nat → List (List Nat)
  | 0, _ => []
  | _, [] => []
  | fuel + 1, x :: xs => (x :: xs).take 64 :: chunksOf64Fuel fuel ((x :: xs).drop 64)

/-- Split a byte list into 64-byte chunks. -/
def chunksOf64 (l : List Nat) : List (List Nat) := chunksOf64Fuel l.length l

/-- MD5 padding: `0x80`, zeros to 56 mod 64, then the 64-bit little-endian
bit length. -/
def md5Pad (msg : List Nat) : List Nat :=
  let len := msg.length
  let zeros := (119 - len % 64) % 64
  let bitLen := (8 * len) % 2 ^ 64
  msg ++ [0x80] ++ List.replicate zeros 0 ++
    (List.range 8).map (fun i => bitLen / 2 ^ (8 * i) % 2 ^ 8)

/-- A 32-bit word as 4 little-endian bytes. -/
def wordLEBytes (w : Nat) : List Nat :=
  [w % 2 ^ 8, w / 2 ^ 8 % 2 ^ 8, w / 2 ^ 16 % 2 ^ 8, w / 2 ^ 24 % 2 ^ 8]

/-- The 16-byte MD5 digest of a byte list (Go `md5.Sum`). -/
def md5Digest (msg : List Nat) : List Nat :=
  let blocks := chunksOf64 (md5Pad msg)
  let h := blocks.foldl (fun acc blk => md5ProcessBlock acc (bytesToWords blk))
    (0x67452301, 0xefcdab89, 0x98badcfe, 0x10325476)
  wordLEBytes h.1 ++ wordLEBytes h.2.1 ++ wordLEBytes h.2.2.1 ++ wordLEBytes h.2.2.2

/-- Lowercase hex digit. -/
def hexDigit (d : Nat) : Char :=
  Char.ofNat (if d < 10 then 48 + d else 87 + d)

/-- Lowercase two-digit hex rendering of a byte (Go `hex.EncodeToString`). -/
def hexByte (b : Nat) : String :=
  String.mk [hexDigit (b / 16), hexDigit (b % 16)]

/-- Go `Md5String` from the repository: the MD5 hex digest of a string. -/
def Md5String (s : String) : String :=
  ((md5Digest (strBytes s)).map hexByte).foldl (· ++ ·) ""

/-! ## Data model (Go structs of the package) -/

/-- Go error values: plain messages (`errors.New` / `fmt.Errorf`), wrapped
errors (`fmt.Errorf` with a wrap verb), and `errors.Join` aggregates. -/
inductive Err where
  | msg (s : String)
  | wrap (s : String) (inner : Err)
  | join (errs : List Err)

/-- Go `errors.Join` over the collected non-nil errors: `nil` for an empty
list, otherwise an aggregate holding the list (even for one element). -/
def joinErrs : List Err → Option Err
  | [] => none
  | es => some (.join es)

/-- AWS `types.Tag` (both pointer fields assumed non-nil, as the code
dereferences them unconditionally). -/
structure Tag where
  key : String
  value : String
deriving DecidableEq, Repr

/-- AWS `types.Volume` restricted to the fields the engine reads:
`VolumeId`, `Size` (an `int32`), and `Tags`. -/
structure AwsVolume where
  volumeId : String
  size : Int
  tags : List Tag
deriving DecidableEq, Repr

/-- Go `Ec2Host`. -/
structure Ec2Host where
  instanceId : String
  instanceArn : String
  availabilityZone : String
  region : String
  tags : List Tag

/-- The `filesystem.FileSystem` capability, modelled by its mount point and
the responses its three fallible operations would return.  `statRes` yields
`(total, used, free)` bytes as `uint64` values. -/
structure FileSystem where
  mountPoint : String
  statRes : Except Err (Nat × Nat × Nat)
  createFsRes : String → Except Err Unit
  growFsRes : String → Except Err Unit

/-- Go `VolumeCfg` (the fields `NewVolume` consumes). -/
structure VolumeCfg where
  ebsType : String
  ebsThroughput : Option Int
  ebsIops : Option Int
  initialSizeGb : Int
  maxSizeGb : Int
  ebsMaxAttachedVolumes : Int
  ebsMaxCreatedVolumes : Int

/-- Go `Volume` (the `ec2Client` handle is replaced by explicit response
oracles passed to the protocol functions). -/
structure Volume where
  host : Ec2Host
  fs : FileSystem
  id : String
  ebsType : String
  throughPut : Option Int
  iops : Option Int
  initialSizeGb : Int
  maxLogicalSizeGb : Int
  maxAttachedVolumes : Int
  maxCreatedVolumes : Int
  managedVolumes : List AwsVolume

/-! ## Remote-call trace and oracles -/

/-- One remote EC2 API call, as recorded in the protocol trace. -/
inductive ApiCall where
  | describeVolumes (instanceId : String)
  | createVolume (sizeGb : Int) (tags : List Tag)
  | waitVolumeAvailable (volumeId : String)
  | attachVolume (volumeId device instanceId : String)
  | modifyInstanceAttribute (device volumeId : String)
  | detachVolume (volumeId : String)
  | deleteVolume (volumeId : String)
deriving DecidableEq, Repr

/-- Whether a trace entry is a `CreateVolume` call. -/
def ApiCall.isCreate : ApiCall → Bool
  | .createVolume _ _ => true
  | _ => false

/-- Responses the EC2 service would give to the three compensation calls
issued by `removeVolume` (detach, wait-until-available, delete). -/
structure RollbackResponses where
  detachRes : Except Err Unit
  waitRes : Except Err Unit
  deleteRes : Except Err Unit

/-- Responses the environment would give to each call site of one
`createAndAttachEbsVolume` attempt, in source order.  `localWaitRes` is the
outcome of the bounded local `/dev` readiness poll
(`localVolAvailabilityWaiter`), which is not a remote call. -/
structure Ec2Responses where
  describeRes : Except Err (List AwsVolume)
  createRes : Except Err AwsVolume
  waitRes : Except Err Unit
  attachRes : Except Err Unit
  modifyRes : Except Err Unit
  localWaitRes : Except Err Unit
  rollback : RollbackResponses

/-- The local `/dev` filesystem as seen by `os.Stat`: a path either exists,
does not exist, or the probe itself fails. -/
inductive StatOutcome where
  | found
  | notExist
  | statErr (e : Err)

/-! ## Pure helpers of `volume.go` -/

/-- Go `managedVolumeSizeGb`: the `int32` sum of the managed records'
sizes. -/
def managedVolumeSizeGb (v : Volume) : Int :=
  v.managedVolumes.foldl (fun acc mv => wrap32 (acc + mv.size)) 0

/-- Go `TotalUsagePercent`.  The `float32` division is modelled as exact
rational division (all behaviour the claims exercise — the zero-total guard
and error propagation — is independent of rounding).  Returns the pair
(percentage, error), as the Go function returns both values. -/
def TotalUsagePercent (v : Volume) : ℚ × Option Err :=
  match v.fs.statRes with
  | .error e => (0, some e)
  | .ok (total, used, _) =>
    if total = 0 then (0, none)
    else ((used : ℚ) / (total : ℚ) * 100, none)

/-- Go `calculateSizeIncreasePerVolume`.  `difference` and the slot count
are `int32` subtractions (wrapping).  The Go expression
`int32(math.Floor(float64(difference) / float64(slots)))` equals exact
floor division `Int.fdiv` whenever `slots ≠ 0`: both operands are `int32`
values, hence exact in `float64`, and the rounded quotient never crosses an
integer boundary (the quotient magnitude is below `2^31`, so a half-ulp is
below the minimal distance `1/slots` from a non-attained integer); the
floored value lies in `int32` range, so the final conversion is exact.
When `slots = 0` the division yields `+Inf` and the Go `float64 → int32`
conversion is implementation-defined; that value is the explicit parameter
`divZeroVal`.  Note the source checks only `difference <= 0` — there is no
guard on the slot count. -/
def calculateSizeIncreasePerVolume (v : Volume) (divZeroVal : Int) :
    Except Err Int :=
  let difference := wrap32 (v.maxLogicalSizeGb - v.initialSizeGb)
  if difference ≤ 0 then
    .error (.msg "calculateSizeIncreasePerVolume: Cannot grow, the volume size is already at or beyond max size")
  else
    let slots := wrap32 (v.maxCreatedVolumes - 1)
    if slots = 0 then .ok divZeroVal
    else .ok (Int.fdiv difference slots)

/-- Go `strings.HasPrefix s p`: `p`'s characters lead `s`'s. -/
def strHasPre (s p : String) : Bool := p.data.isPrefixOf s.data

/-- Go `buildVolumeTags` with the injected clock already rendered to a
string (`now().String()`): the four synthetic tags in source order,
followed by every host tag whose key does not start with the reserved
provider namespace `aws:`. -/
def buildVolumeTags (v : Volume) (now : String) : List Tag :=
  [{ key := "source-instance", value := v.host.instanceId },
   { key := "source-instance-arn", value := v.host.instanceArn },
   { key := "ebs-autoscale-id", value := v.id },
   { key := "ebs-autoscale-creation-time", value := now }] ++
  v.host.tags.filter (fun t => !(strHasPre t.key "aws:"))

/-- Go `isAvailable`: `os.Stat` success means the path is in use (`false`),
`ErrNotExist` means it is free (`true`), anything else is a wrapped
error. -/
def isAvailable (devFs : String → StatOutcome) (path : String) :
    Except Err Bool :=
  match devFs path with
  | .found => .ok false
  | .notExist => .ok true
  | .statErr e => .error (.wrap "isAvailable: unexpected error from os.Stat" e)

/-- The 26 candidate device paths `/dev/xvdba` .. `/dev/xvdbz`, in the
ascending order the loop in `getNextLogicalDevice` scans them. -/
def deviceCandidates : List String :=
  (List.range 26).map (fun i => "/dev/xvdb".push (Char.ofNat (97 + i)))

/-- The scanning loop of `getNextLogicalDevice` over a candidate list. -/
def findDevice (devFs : String → StatOutcome) : List String → Except Err String
  | [] => .error (.msg "Volume.getNextLogicalDevice: Could not determine the next logical device")
  | d :: rest =>
    match isAvailable devFs d with
    | .error e => .error e
    | .ok true => .ok d
    | .ok false => findDevice devFs rest

/-- Go `getNextLogicalDevice`. -/
def getNextLogicalDevice (devFs : String → StatOutcome) : Except Err String :=
  findDevice devFs deviceCandidates

/-- Go `createVolumeOutputToVolume`, restricted to the carried fields
(`VolumeId`, `Size`, `Tags` are all among those the Go conversion
copies). -/
def createVolumeOutputToVolume (o : AwsVolume) : AwsVolume :=
  { volumeId := o.volumeId, size := o.size, tags := o.tags }

/-! ## Protocol functions -/

/-- Go `removeVolume`: best-effort detach, wait-until-available, delete;
each failure is collected and the collected list is `errors.Join`ed.  The
second component is the trace of the three compensation calls, which are
always all issued. -/
def removeVolume (r : RollbackResponses) (volumeId : String) :
    Option Err × List ApiCall :=
  let errList : List Err := []
  let errList := match r.detachRes with
    | .error e => errList ++ [e]
    | .ok _ => errList
  let errList := match r.waitRes with
    | .error e => errList ++ [e]
    | .ok _ => errList
  let errList := match r.deleteRes with
    | .error e => errList ++ [e]
    | .ok _ => errList
  (joinErrs errList,
   [.detachVolume volumeId, .waitVolumeAvailable volumeId, .deleteVolume volumeId])

/-- Go `instanceHasCapacity`: describe all volumes attached to this
instance and compare the count against `MaxAttachedVolumes`. -/
def instanceHasCapacity (v : Volume) (describeRes : Except Err (List AwsVolume)) :
    Except Err (Bool × Nat) × List ApiCall :=
  match describeRes with
  | .error e => (.error e, [.describeVolumes v.host.instanceId])
  | .ok vols =>
    let count := vols.length
    if (count : Int) > v.maxAttachedVolumes then
      (.ok (false, count), [.describeVolumes v.host.instanceId])
    else
      (.ok (true, count), [.describeVolumes v.host.instanceId])

/-- The `MaxLogicalSizeGb exceeded` message of `createAndAttachEbsVolume`. -/
def maxSizeExceededMsg (maxGb observed : Int) : String :=
  "createAndAttachEbsVolume: MaxLogicalSizeGb exceeded: max:" ++ toString maxGb ++
    "Gb observed:" ++ toString observed ++ "Gb"

/-- The `MaxCreatedVolumes reached` message of `createAndAttachEbsVolume`. -/
def maxCreatedReachedMsg (maxN observed : Int) : String :=
  "createAndAttachEbsVolume: MaxCreatedVolumes reached: max:" ++ toString maxN ++
    " observed:" ++ toString observed

/-- The `MaxAttachedVolumes exceeded` message of `createAndAttachEbsVolume`. -/
def maxAttachedExceededMsg (maxN observed : Int) : String :=
  "createAndAttachEbsVolume: MaxAttachedVolumes exceeded: max:" ++ toString maxN ++
    " observed:" ++ toString observed

/-- Go `createAndAttachEbsVolume`.  Returns the result (the allocated
device path on success), the updated `Volume` (the receiver is a pointer,
so the append to `ManagedVolumes` survives even when a later step fails),
and the trace of remote calls issued.  Mirrors the source order: size
pre-check, created-count pre-check, fresh capacity probe, device
allocation, create, availability wait (rollback on failure), attach
(rollback on failure), append to `ManagedVolumes`, delete-on-termination
mark (rollback on failure, append kept), local device readiness wait. -/
def createAndAttachEbsVolume (v : Volume) (o : Ec2Responses)
    (devFs : String → StatOutcome) (now : String) (sizeGb : Int) :
    Except Err String × Volume × List ApiCall :=
  let volSize := managedVolumeSizeGb v
  if volSize > v.maxLogicalSizeGb then
    (.error (.msg (maxSizeExceededMsg v.maxLogicalSizeGb volSize)), v, [])
  else if (v.managedVolumes.length : Int) = v.maxCreatedVolumes then
    (.error (.msg (maxCreatedReachedMsg v.maxCreatedVolumes v.managedVolumes.length)), v, [])
  else
    let probe := instanceHasCapacity v o.describeRes
    match probe.1 with
    | .error e => (.error e, v, probe.2)
    | .ok (c, totalVolumes) =>
      if !c then
        (.error (.msg (maxAttachedExceededMsg v.maxAttachedVolumes totalVolumes)), v, probe.2)
      else
        match getNextLogicalDevice devFs with
        | .error e => (.error e, v, probe.2)
        | .ok device =>
          match o.createRes with
          | .error e => (.error e, v, probe.2 ++ [.createVolume sizeGb (buildVolumeTags v now)])
          | .ok vol =>
            let tr1 := probe.2 ++ [.createVolume sizeGb (buildVolumeTags v now),
              .waitVolumeAvailable vol.volumeId]
            match o.waitRes with
            | .error e =>
              let rb := removeVolume o.rollback vol.volumeId
              (match rb.1 with
               | some e2 => Except.error (Err.join [e, e2])
               | none => Except.error e, v, tr1 ++ rb.2)
            | .ok _ =>
              let tr2 := tr1 ++ [.attachVolume vol.volumeId device v.host.instanceId]
              match o.attachRes with
              | .error e =>
                let rb := removeVolume o.rollback vol.volumeId
                (match rb.1 with
                 | some e2 => Except.error (Err.join [e, e2])
                 | none => Except.error e, v, tr2 ++ rb.2)
              | .ok _ =>
                let v2 := { v with
                  managedVolumes := v.managedVolumes ++ [createVolumeOutputToVolume vol] }
                let tr3 := tr2 ++ [.modifyInstanceAttribute device vol.volumeId]
                match o.modifyRes with
                | .error e =>
                  let rb := removeVolume o.rollback vol.volumeId
                  (match rb.1 with
                   | some e2 => Except.error (Err.join [e, e2])
                   | none => Except.error e, v2, tr3 ++ rb.2)
                | .ok _ =>
                  match o.localWaitRes with
                  | .error e => (.error e, v2, tr3)
                  | .ok _ => (.ok device, v2, tr3)

/-- Go `CreateVolume`: run the protocol at `InitialSizeGb`, then create the
filesystem on the returned device. -/
def CreateVolume (v : Volume) (o : Ec2Responses) (devFs : String → StatOutcome)
    (now : String) : Except Err Unit × Volume × List ApiCall :=
  match createAndAttachEbsVolume v o devFs now v.initialSizeGb with
  | (.error e, v2, tr) => (.error e, v2, tr)
  | (.ok device, v2, tr) =>
    match v2.fs.createFsRes device with
    | .error e => (.error e, v2, tr)
    | .ok _ => (.ok (), v2, tr)

/-- Go `GrowVolume`: compute the per-volume increment, run the protocol at
that size, then grow the filesystem across the returned device. -/
def GrowVolume (v : Volume) (o : Ec2Responses) (devFs : String → StatOutcome)
    (now : String) (divZeroVal : Int) : Except Err Unit × Volume × List ApiCall :=
  match calculateSizeIncreasePerVolume v divZeroVal with
  | .error e => (.error e, v, [])
  | .ok sizeIncreasePerVolume =>
    match createAndAttachEbsVolume v o devFs now sizeIncreasePerVolume with
    | (.error e, v2, tr) => (.error e, v2, tr)
    | (.ok device, v2, tr) =>
      match v2.fs.growFsRes device with
      | .error e => (.error e, v2, tr)
      | .ok _ => (.ok (), v2, tr)

/-- The managed-record predicate of `NewVolume`: some tag on the volume has
key `ebs-autoscale-id` and the derived id as value (the inner loop with its
`break`). -/
def hasManagedIdTag (ebsAutoscaleId : String) (vol : AwsVolume) : Bool :=
  vol.tags.any (fun t => t.key == "ebs-autoscale-id" && t.value == ebsAutoscaleId)

/-- Go `NewVolume` after the AWS client setup: given the provider's
response to the describe-volumes-attached-to-this-host query, rebuild
`ManagedVolumes` as the attached volumes carrying the identity tag, and
assemble the aggregate from the configuration. -/
def NewVolume (host : Ec2Host) (fs : FileSystem) (cfg : VolumeCfg)
    (describeRes : Except Err (List AwsVolume)) : Except Err Volume :=
  match describeRes with
  | .error e => .error e
  | .ok attachedVolumes =>
    let ebsAutoscaleId := Md5String fs.mountPoint
    let managedVolumes := attachedVolumes.filter (hasManagedIdTag ebsAutoscaleId)
    .ok { host := host, fs := fs, id := ebsAutoscaleId,
          ebsType := cfg.ebsType, throughPut := cfg.ebsThroughput,
          iops := cfg.ebsIops, initialSizeGb := cfg.initialSizeGb,
          maxLogicalSizeGb := cfg.maxSizeGb,
          maxAttachedVolumes := cfg.ebsMaxAttachedVolumes,
          maxCreatedVolumes := cfg.ebsMaxCreatedVolumes,
          managedVolumes := managedVolumes }

/-! ## Branch characterization of one protocol attempt

One lemma per execution path of `createAndAttachEbsVolume`, proved by
unfolding the definition; the claim theorems below are assembled from
these. -/

theorem run_size_exceeded (v : Volume) (o : Ec2Responses)
    (devFs : String → StatOutcome) (now : String) (sizeGb : Int)
    (h : managedVolumeSizeGb v > v.maxLogicalSizeGb) :
    createAndAttachEbsVolume v o devFs now sizeGb =
      (.error (.msg (maxSizeExceededMsg v.maxLogicalSizeGb (managedVolumeSizeGb v))),
       v, []) := by
  simp only [createAndAttachEbsVolume]
  rw [if_pos h]

theorem run_count_reached (v : Volume) (o : Ec2Responses)
    (devFs : String → StatOutcome) (now : String) (sizeGb : Int)
    (h1 : ¬ managedVolumeSizeGb v > v.maxLogicalSizeGb)
    (h2 : (v.managedVolumes.length : Int) = v.maxCreatedVolumes) :
    createAndAttachEbsVolume v o devFs now sizeGb =
      (.error (.msg (maxCreatedReachedMsg v.maxCreatedVolumes v.managedVolumes.length)),
       v, []) := by
  simp only [createAndAttachEbsVolume]
  rw [if_neg h1, if_pos h2]

theorem run_describe_error (v : Volume) (o : Ec2Responses)
    (devFs : String → StatOutcome) (now : String) (sizeGb : Int) (e : Err)
    (h1 : ¬ managedVolumeSizeGb v > v.maxLogicalSizeGb)
    (h2 : (v.managedVolumes.length : Int) ≠ v.maxCreatedVolumes)
    (h3 : o.describeRes = .error e) :
    createAndAttachEbsVolume v o devFs now sizeGb =
      (.error e, v, [.describeVolumes v.host.instanceId]) := by
  simp only [createAndAttachEbsVolume]
  rw [if_neg h1, if_neg h2]
  simp only [instanceHasCapacity, h3]

theorem run_attached_exceeded (v : Volume) (o : Ec2Responses)
    (devFs : String → StatOutcome) (now : String) (sizeGb : Int)
    (vols : List AwsVolume)
    (h1 : ¬ managedVolumeSizeGb v > v.maxLogicalSizeGb)
    (h2 : (v.managedVolumes.length : Int) ≠ v.maxCreatedVolumes)
    (h3 : o.describeRes = .ok vols)
    (h4 : (vols.length : Int) > v.maxAttachedVolumes) :
    createAndAttachEbsVolume v o devFs now sizeGb =
      (.error (.msg (maxAttachedExceededMsg v.maxAttachedVolumes vols.length)),
       v, [.describeVolumes v.host.instanceId]) := by
  simp only [createAndAttachEbsVolume]
  rw [if_neg h1, if_neg h2]
  simp only [instanceHasCapacity, h3]
  rw [if_pos h4]
  simp

theorem run_device_error (v : Volume) (o : Ec2Responses)
    (devFs : String → StatOutcome) (now : String) (sizeGb : Int)
    (vols : List AwsVolume) (e : Err)
    (h1 : ¬ managedVolumeSizeGb v > v.maxLogicalSizeGb)
    (h2 : (v.managedVolumes.length : Int) ≠ v.maxCreatedVolumes)
    (h3 : o.describeRes = .ok vols)
    (h4 : ¬ (vols.length : Int) > v.maxAttachedVolumes)
    (h5 : getNextLogicalDevice devFs = .error e) :
    createAndAttachEbsVolume v o devFs now sizeGb =
      (.error e, v, [.describeVolumes v.host.instanceId]) := by
  simp only [createAndAttachEbsVolume]
  rw [if_neg h1, if_neg h2]
  simp only [instanceHasCapacity, h3]
  rw [if_neg h4]
  simp only [h5]
  simp

theorem run_create_error (v : Volume) (o : Ec2Responses)
    (devFs : String → StatOutcome) (now : String) (sizeGb : Int)
    (vols : List AwsVolume) (device : String) (e : Err)
    (h1 : ¬ managedVolumeSizeGb v > v.maxLogicalSizeGb)
    (h2 : (v.managedVolumes.length : Int) ≠ v.maxCreatedVolumes)
    (h3 : o.describeRes = .ok vols)
    (h4 : ¬ (vols.length : Int) > v.maxAttachedVolumes)
    (h5 : getNextLogicalDevice devFs = .ok device)
    (h6 : o.createRes = .error e) :
    createAndAttachEbsVolume v o devFs now sizeGb =
      (.error e, v,
       [.describeVolumes v.host.instanceId,
        .createVolume sizeGb (buildVolumeTags v now)]) := by
  simp only [createAndAttachEbsVolume]
  rw [if_neg h1, if_neg h2]
  simp only [instanceHasCapacity, h3]
  rw [if_neg h4]
  simp only [h5, h6]
  simp

theorem run_wait_error (v : Volume) (o : Ec2Responses)
    (devFs : String → StatOutcome) (now : String) (sizeGb : Int)
    (vols : List AwsVolume) (device : String) (vol : AwsVolume) (e : Err)
    (h1 : ¬ managedVolumeSizeGb v > v.maxLogicalSizeGb)
    (h2 : (v.managedVolumes.length : Int) ≠ v.maxCreatedVolumes)
    (h3 : o.describeRes = .ok vols)
    (h4 : ¬ (vols.length : Int) > v.maxAttachedVolumes)
    (h5 : getNextLogicalDevice devFs = .ok device)
    (h6 : o.createRes = .ok vol)
    (h7 : o.waitRes = .error e) :
    createAndAttachEbsVolume v o devFs now sizeGb =
      ((match (removeVolume o.rollback vol.volumeId).1 with
        | some e2 => Except.error (Err.join [e, e2])
        | none => Except.error e),
       v,
       [.describeVolumes v.host.instanceId,
        .createVolume sizeGb (buildVolumeTags v now),
        .waitVolumeAvailable vol.volumeId] ++ (removeVolume o.rollback vol.volumeId).2) := by
  simp only [createAndAttachEbsVolume]
  rw [if_neg h1, if_neg h2]
  simp only [instanceHasCapacity, h3]
  rw [if_neg h4]
  simp only [h5, h6, h7]
  simp

theorem run_attach_error (v : Volume) (o : Ec2Responses)
    (devFs : String → StatOutcome) (now : String) (sizeGb : Int)
    (vols : List AwsVolume) (device : String) (vol : AwsVolume) (e : Err)
    (h1 : ¬ managedVolumeSizeGb v > v.maxLogicalSizeGb)
    (h2 : (v.managedVolumes.length : Int) ≠ v.maxCreatedVolumes)
    (h3 : o.describeRes = .ok vols)
    (h4 : ¬ (vols.length : Int) > v.maxAttachedVolumes)
    (h5 : getNextLogicalDevice devFs = .ok device)
    (h6 : o.createRes = .ok vol)
    (h7 : o.waitRes = .ok ())
    (h8 : o.attachRes = .error e) :
    createAndAttachEbsVolume v o devFs now sizeGb =
      ((match (removeVolume o.rollback vol.volumeId).1 with
        | some e2 => Except.error (Err.join [e, e2])
        | none => Except.error e),
       v,
       [.describeVolumes v.host.instanceId,
        .createVolume sizeGb (buildVolumeTags v now),
        .waitVolumeAvailable vol.volumeId,
        .attachVolume vol.volumeId device v.host.instanceId] ++
         (removeVolume o.rollback vol.volumeId).2) := by
  simp only [createAndAttachEbsVolume]
  rw [if_neg h1, if_neg h2]
  simp only [instanceHasCapacity, h3]
  rw [if_neg h4]
  simp only [h5, h6, h7, h8]
  simp

theorem run_modify_error (v : Volume) (o : Ec2Responses)
    (devFs : String → StatOutcome) (now : String) (sizeGb : Int)
    (vols : List AwsVolume) (device : String) (vol : AwsVolume) (e : Err)
    (h1 : ¬ managedVolumeSizeGb v > v.maxLogicalSizeGb)
    (h2 : (v.managedVolumes.length : Int) ≠ v.maxCreatedVolumes)
    (h3 : o.describeRes = .ok vols)
    (h4 : ¬ (vols.length : Int) > v.maxAttachedVolumes)
    (h5 : getNextLogicalDevice devFs = .ok device)
    (h6 : o.createRes = .ok vol)
    (h7 : o.waitRes = .ok ())
    (h8 : o.attachRes = .ok ())
    (h9 : o.modifyRes = .error e) :
    createAndAttachEbsVolume v o devFs now sizeGb =
      ((match (removeVolume o.rollback vol.volumeId).1 with
        | some e2 => Except.error (Err.join [e, e2])
        | none => Except.error e),
       { v with managedVolumes := v.managedVolumes ++ [createVolumeOutputToVolume vol] },
       [.describeVolumes v.host.instanceId,
        .createVolume sizeGb (buildVolumeTags v now),
        .waitVolumeAvailable vol.volumeId,
        .attachVolume vol.volumeId device v.host.instanceId,
        .modifyInstanceAttribute device vol.volumeId] ++
         (removeVolume o.rollback vol.volumeId).2) := by
  simp only [createAndAttachEbsVolume]
  rw [if_neg h1, if_neg h2]
  simp only [instanceHasCapacity, h3]
  rw [if_neg h4]
  simp only [h5, h6, h7, h8, h9]
  simp

theorem run_local_wait_error (v : Volume) (o : Ec2Responses)
    (devFs : String → StatOutcome) (now : String) (sizeGb : Int)
    (vols : List AwsVolume) (device : String) (vol : AwsVolume) (e : Err)
    (h1 : ¬ managedVolumeSizeGb v > v.maxLogicalSizeGb)
    (h2 : (v.managedVolumes.length : Int) ≠ v.maxCreatedVolumes)
    (h3 : o.describeRes = .ok vols)
    (h4 : ¬ (vols.length : Int) > v.maxAttachedVolumes)
    (h5 : getNextLogicalDevice devFs = .ok device)
    (h6 : o.createRes = .ok vol)
    (h7 : o.waitRes = .ok ())
    (h8 : o.attachRes = .ok ())
    (h9 : o.modifyRes = .ok ())
    (h10 : o.localWaitRes = .error e) :
    createAndAttachEbsVolume v o devFs now sizeGb =
      (.error e,
       { v with managedVolumes := v.managedVolumes ++ [createVolumeOutputToVolume vol] },
       [.describeVolumes v.host.instanceId,
        .createVolume sizeGb (buildVolumeTags v now),
        .waitVolumeAvailable vol.volumeId,
        .attachVolume vol.volumeId device v.host.instanceId,
        .modifyInstanceAttribute device vol.volumeId]) := by
  simp only [createAndAttachEbsVolume]
  rw [if_neg h1, if_neg h2]
  simp only [instanceHasCapacity, h3]
  rw [if_neg h4]
  simp only [h5, h6, h7, h8, h9, h10]
  simp

theorem run_success (v : Volume) (o : Ec2Responses)
    (devFs : String → StatOutcome) (now : String) (sizeGb : Int)
    (vols : List AwsVolume) (device : String) (vol : AwsVolume)
    (h1 : ¬ managedVolumeSizeGb v > v.maxLogicalSizeGb)
    (h2 : (v.managedVolumes.length : Int) ≠ v.maxCreatedVolumes)
    (h3 : o.describeRes = .ok vols)
    (h4 : ¬ (vols.length : Int) > v.maxAttachedVolumes)
    (h5 : getNextLogicalDevice devFs = .ok device)
    (h6 : o.createRes = .ok vol)
    (h7 : o.waitRes = .ok ())
    (h8 : o.attachRes = .ok ())
    (h9 : o.modifyRes = .ok ())
    (h10 : o.localWaitRes = .ok ()) :
    createAndAttachEbsVolume v o devFs now sizeGb =
      (.ok device,
       { v with managedVolumes := v.managedVolumes ++ [createVolumeOutputToVolume vol] },
       [.describeVolumes v.host.instanceId,
        .createVolume sizeGb (buildVolumeTags v now),
        .waitVolumeAvailable vol.volumeId,
        .attachVolume vol.volumeId device v.host.instanceId,
        .modifyInstanceAttribute device vol.volumeId]) := by
  simp only [createAndAttachEbsVolume]
  rw [if_neg h1, if_neg h2]
  simp only [instanceHasCapacity, h3]
  rw [if_neg h4]
  simp only [h5, h6, h7, h8, h9, h10]
  simp

/-! ## Concrete scenarios used by counterexamples and witnesses -/

/-- A host with no tags. -/
def hostA : Ec2Host :=
  { instanceId := "i-1", instanceArn := "arn:aws:ec2:us-east-1:1:instance/i-1",
    availabilityZone := "us-east-1a", region := "us-east-1", tags := [] }

/-- A healthy filesystem capability: 200 bytes total, 100 used. -/
def fsA : FileSystem :=
  { mountPoint := "/mnt/ebs-autoscale", statRes := .ok (200, 100, 100),
    createFsRes := fun _ => .ok (), growFsRes := fun _ => .ok () }

/-- A managed-volume record with no tags. -/
def volRec (i : String) (s : Int) : AwsVolume :=
  { volumeId := i, size := s, tags := [] }

/-- Compensation responses where every rollback step succeeds. -/
def okRollback : RollbackResponses :=
  { detachRes := .ok (), waitRes := .ok (), deleteRes := .ok () }

/-- An environment in which every call of the attempt succeeds: no other
volume is attached, the provider creates `vol-new` of 75 GB. -/
def oAllOk : Ec2Responses :=
  { describeRes := .ok [], createRes := .ok (volRec "vol-new" 75),
    waitRes := .ok (), attachRes := .ok (), modifyRes := .ok (),
    localWaitRes := .ok (), rollback := okRollback }

/-- A local `/dev` with every candidate slot free. -/
def devFsFree : String → StatOutcome := fun _ => .notExist

/-- A volume set already holding exactly `maxLogicalSizeGb` = 200 GB across
two records, with a third creation slot still open (config 50/200/3, the
end-to-end example of the spec). -/
def vAtMax : Volume :=
  { host := hostA, fs := fsA, id := "id-a", ebsType := "gp3",
    throughPut := none, iops := none, initialSizeGb := 50,
    maxLogicalSizeGb := 200, maxAttachedVolumes := 16, maxCreatedVolumes := 3,
    managedVolumes := [volRec "vol-1" 100, volRec "vol-2" 100] }

/-- A volume set with one 50 GB record and room to grow (config 50/200/3). -/
def vBelow : Volume :=
  { host := hostA, fs := fsA, id := "id-a", ebsType := "gp3",
    throughPut := none, iops := none, initialSizeGb := 50,
    maxLogicalSizeGb := 200, maxAttachedVolumes := 16, maxCreatedVolumes := 3,
    managedVolumes := [volRec "vol-1" 50] }

/-- A configuration with `maxCreatedVolumes = 1`, the input of the repo's
own test case `Only one volume created`. -/
def vOneCreated : Volume :=
  { host := hostA, fs := fsA, id := "id-a", ebsType := "gp3",
    throughPut := none, iops := none, initialSizeGb := 50,
    maxLogicalSizeGb := 200, maxAttachedVolumes := 16, maxCreatedVolumes := 1,
    managedVolumes := [] }

/-! ## Claim C3 -/

/-- Claim C3 (code bug): for `initialSizeGb = 50`, `maxLogicalSizeGb = 200`,
`maxCreatedVolumes = 1` — the exact input of the repository's own test
`TestCalculateSizeIncreasePerVolume/Only one volume created`, which
expects an error — the increment calculation does NOT fail: since the
numerator is positive the only guard passes, the slot count is `0`, and
the function returns the implementation-defined result of converting the
`float64` division by zero to `int32`, with a nil error.  This holds for
every possible value of that implementation-defined conversion. -/
theorem C3_calc_no_error_on_one_volume (divZeroVal : Int) :
    calculateSizeIncreasePerVolume vOneCreated divZeroVal =
      .ok divZeroVal := rfl

/-! ## Claim C7 -/

/-- Whether the local probe outcome is a probe failure. -/
def StatOutcome.isErr : StatOutcome → Bool
  | .statErr _ => true
  | _ => false

/-- Whether the local probe outcome is `does not exist`. -/
def StatOutcome.isNotExist : StatOutcome → Bool
  | .notExist => true
  | _ => false

theorem findDevice_no_errs (devFs : String → StatOutcome) (l : List String)
    (h : ∀ d ∈ l, (devFs d).isErr = false) :
    findDevice devFs l =
      (match l.find? (fun d => (devFs d).isNotExist) with
       | some d => .ok d
       | none => .error (.msg "Volume.getNextLogicalDevice: Could not determine the next logical device")) := by
  induction l with
  | nil => rfl
  | cons d rest ih =>
    have hd := h d (by simp)
    cases hdev : devFs d with
    | found =>
      rw [hdev] at hd
      simp only [findDevice, isAvailable, hdev, List.find?]
      simp only [StatOutcome.isNotExist]
      exact ih (fun x hx => h x (by simp [hx]))
    | notExist =>
      simp only [findDevice, isAvailable, hdev, List.find?]
      simp only [StatOutcome.isNotExist]
    | statErr e =>
      rw [hdev] at hd
      simp [StatOutcome.isErr] at hd

theorem findDevice_ok_free (devFs : String → StatOutcome) (l : List String)
    (d : String) (h : findDevice devFs l = .ok d) : devFs d = .notExist := by
  induction l with
  | nil => simp [findDevice] at h
  | cons x rest ih =>
    simp only [findDevice, isAvailable] at h
    cases hdev : devFs x with
    | found =>
      rw [hdev] at h
      exact ih h
    | notExist =>
      rw [hdev] at h
      simp only [Except.ok.injEq] at h
      rw [← h]
      exact hdev
    | statErr e =>
      rw [hdev] at h
      simp at h

/-- Claim C7: the allocator scans the fixed 26-candidate range
`/dev/xvdba` .. `/dev/xvdbz` in ascending order; when no probe fails it
returns exactly the first candidate whose device node does not exist; when
every candidate exists it fails with the no-device error; and a returned
path never has an existing device node. -/
theorem C7_device_allocator (devFs : String → StatOutcome) :
    deviceCandidates.length = 26 ∧
    ((∀ d ∈ deviceCandidates, (devFs d).isErr = false) →
      getNextLogicalDevice devFs =
        (match deviceCandidates.find? (fun d => (devFs d).isNotExist) with
         | some d => .ok d
         | none => .error (.msg "Volume.getNextLogicalDevice: Could not determine the next logical device"))) ∧
    ((∀ d ∈ deviceCandidates, devFs d = .found) →
      getNextLogicalDevice devFs =
        .error (.msg "Volume.getNextLogicalDevice: Could not determine the next logical device")) ∧
    (∀ d, getNextLogicalDevice devFs = .ok d → devFs d = .notExist) := by
  refine ⟨by decide, ?_, ?_, ?_⟩
  · intro h
    exact findDevice_no_errs devFs deviceCandidates h
  · intro h
    simp only [getNextLogicalDevice]
    rw [findDevice_no_errs devFs deviceCandidates
      (fun d hd => by rw [h d hd]; rfl)]
    have : deviceCandidates.find? (fun d => (devFs d).isNotExist) = none := by
      rw [List.find?_eq_none]
      intro d hd
      rw [h d hd]
      simp [StatOutcome.isNotExist]
    rw [this]
  · intro d h
    exact findDevice_ok_free devFs deviceCandidates d h

/-- A local `/dev` on which `/dev/xvdba` .. `/dev/xvdbe` exist and every
other path is free (the probing filesystem of the spec's allocator
example). -/
def devFsFiveUsed : String → StatOutcome := fun p =>
  if ["/dev/xvdba", "/dev/xvdbb", "/dev/xvdbc", "/dev/xvdbd", "/dev/xvdbe"].contains p
  then .found else .notExist

theorem C7_device_allocator_witness :
    getNextLogicalDevice devFsFiveUsed = .ok "/dev/xvdbf" ∧
    devFsFiveUsed "/dev/xvdbf" = .notExist := by
  constructor
  · rw [(C7_device_allocator devFsFiveUsed).2.1 (by decide)]
    rfl
  · rfl

/-! ## Claim C8 -/

/-- Claim C8: the built tag set holds exactly the four synthetic tags
(source instance id, instance ARN, derived id, rendered creation time) and
the host tags whose keys do not carry the reserved `aws:` namespace; every
`aws:`-keyed host tag is excluded; and the output depends only on the
host, the derived id, and the injected time. -/
theorem C8_buildVolumeTags (v : Volume) (now : String) :
    (∀ t : Tag, t ∈ buildVolumeTags v now ↔
      (t = { key := "source-instance", value := v.host.instanceId } ∨
       t = { key := "source-instance-arn", value := v.host.instanceArn } ∨
       t = { key := "ebs-autoscale-id", value := v.id } ∨
       t = { key := "ebs-autoscale-creation-time", value := now } ∨
       (t ∈ v.host.tags ∧ strHasPre t.key "aws:" = false))) ∧
    (∀ t ∈ v.host.tags, strHasPre t.key "aws:" = true →
      t ∉ buildVolumeTags v now) ∧
    (∀ w : Volume, w.host = v.host → w.id = v.id →
      buildVolumeTags w now = buildVolumeTags v now) := by
  refine ⟨?_, ?_, ?_⟩
  · intro t
    simp [buildVolumeTags, List.mem_filter, or_assoc]
  · intro t ht haws hmem
    rcases List.mem_append.mp hmem with h | h
    · simp only [List.mem_cons, List.not_mem_nil, or_false] at h
      rcases h with rfl | rfl | rfl | rfl <;>
        (dsimp only at haws; exact absurd haws (by decide))
    · have hp := (List.mem_filter.mp h).2
      rw [haws] at hp
      simp at hp
  · intro w hh hid
    simp [buildVolumeTags, hh, hid]

/-- A volume whose host carries one ordinary tag and one `aws:`-reserved
tag (mirroring the repository's `TestBuildVolumeTags` fixture). -/
def vTagged : Volume :=
  { vBelow with host :=
    { hostA with tags :=
      [{ key := "HostName", value := "Mock Host Name 1" },
       { key := "aws:HostLabel", value := "excluded" }] } }

theorem C8_buildVolumeTags_witness :
    ({ key := "aws:HostLabel", value := "excluded" } : Tag) ∉
      buildVolumeTags vTagged "t0" ∧
    ({ key := "HostName", value := "Mock Host Name 1" } : Tag) ∈
      buildVolumeTags vTagged "t0" := by
  constructor
  · exact (C8_buildVolumeTags vTagged "t0").2.1
      { key := "aws:HostLabel", value := "excluded" } (by decide) (by decide)
  · exact ((C8_buildVolumeTags vTagged "t0").1
      { key := "HostName", value := "Mock Host Name 1" }).mpr
      (Or.inr (Or.inr (Or.inr (Or.inr ⟨by decide, by decide⟩))))

/-! ## Claim C9 -/

/-- Claim C9: the usage percentage is `used / total * 100` from the
filesystem's `stat()`; a zero total yields `0` with no error; a `stat()`
error is propagated with the zero percentage value returned alongside. -/
theorem C9_totalUsagePercent (v : Volume) :
    (∀ e, v.fs.statRes = .error e → TotalUsagePercent v = (0, some e)) ∧
    (∀ used free, v.fs.statRes = .ok (0, used, free) →
      TotalUsagePercent v = (0, none)) ∧
    (∀ total used free, v.fs.statRes = .ok (total, used, free) → total ≠ 0 →
      TotalUsagePercent v = ((used : ℚ) / (total : ℚ) * 100, none)) := by
  refine ⟨?_, ?_, ?_⟩
  · intro e he
    simp [TotalUsagePercent, he]
  · intro used free h
    simp [TotalUsagePercent, h]
  · intro total used free h hz
    simp [TotalUsagePercent, h, hz]

theorem C9_totalUsagePercent_witness :
    TotalUsagePercent vBelow = (50, none) := by
  have h := (C9_totalUsagePercent vBelow).2.2 200 100 100 rfl (by decide)
  rw [h]
  norm_num

/-! ## Claim C10 -/

/-- A provider volume record carrying the identity tag derived from the
mount point `/mnt/ebs-autoscale`. -/
def taggedRec (i : String) (s : Int) : AwsVolume :=
  { volumeId := i, size := s,
    tags := [{ key := "ebs-autoscale-id", value := Md5String "/mnt/ebs-autoscale" }] }

/-- A configuration whose ceilings (10 GB, 1 created volume) lie well below
the discovered state of the scenario. -/
def cfgTiny : VolumeCfg :=
  { ebsType := "gp3", ebsThroughput := none, ebsIops := none,
    initialSizeGb := 50, maxSizeGb := 10, ebsMaxAttachedVolumes := 16,
    ebsMaxCreatedVolumes := 1 }

/-- The aggregate the discovery scenario of C10 rebuilds: two 100 GB
volumes found despite ceilings of 10 GB and 1 created volume. -/
def vDiscovered : Volume :=
  { host := hostA, fs := fsA, id := Md5String "/mnt/ebs-autoscale",
    ebsType := "gp3", throughPut := none, iops := none,
    initialSizeGb := 50, maxLogicalSizeGb := 10,
    maxAttachedVolumes := 16, maxCreatedVolumes := 1,
    managedVolumes := [taggedRec "vol-1" 100, taggedRec "vol-2" 100] }

/-- Claim C10: for every provider response, construction rebuilds
`ManagedVolumes` as exactly the attached volumes whose `ebs-autoscale-id`
tag equals the MD5 hash of the mount point; and no capacity ceiling is
applied at discovery — concretely, with ceilings 10 GB / 1 volume the
rebuilt set below holds 2 volumes of 200 GB total, exceeding both. -/
theorem C10_discovery_rebuild :
    (∀ host fs cfg vols, ∃ v, NewVolume host fs cfg (.ok vols) = .ok v ∧
      v.id = Md5String fs.mountPoint ∧
      v.maxLogicalSizeGb = cfg.maxSizeGb ∧
      v.maxCreatedVolumes = cfg.ebsMaxCreatedVolumes ∧
      (∀ w, w ∈ v.managedVolumes ↔
        w ∈ vols ∧ hasManagedIdTag (Md5String fs.mountPoint) w = true)) ∧
    (∃ v, NewVolume hostA fsA cfgTiny
        (.ok [taggedRec "vol-1" 100, taggedRec "vol-2" 100]) = .ok v ∧
      v.managedVolumes = [taggedRec "vol-1" 100, taggedRec "vol-2" 100] ∧
      (v.managedVolumes.length : Int) > cfgTiny.ebsMaxCreatedVolumes ∧
      managedVolumeSizeGb v > cfgTiny.maxSizeGb) := by
  have hfil : List.filter (hasManagedIdTag (Md5String fsA.mountPoint))
      [taggedRec "vol-1" 100, taggedRec "vol-2" 100] =
      [taggedRec "vol-1" 100, taggedRec "vol-2" 100] := by
    simp [hasManagedIdTag, taggedRec, fsA]
  constructor
  · intro host fs cfg vols
    refine ⟨_, rfl, rfl, rfl, rfl, ?_⟩
    intro w
    simp [NewVolume, List.mem_filter]
  · refine ⟨vDiscovered, ?_, rfl, by decide, by decide⟩
    simp only [NewVolume, hfil]
    rfl

theorem C10_discovery_rebuild_witness :
    ∃ v, NewVolume hostA fsA cfgTiny
        (.ok [taggedRec "vol-1" 100, taggedRec "vol-2" 100]) = .ok v ∧
      taggedRec "vol-1" 100 ∈ v.managedVolumes := by
  obtain ⟨v, hv, _, _, _, hw⟩ := C10_discovery_rebuild.1 hostA fsA cfgTiny
    [taggedRec "vol-1" 100, taggedRec "vol-2" 100]
  refine ⟨v, hv, (hw (taggedRec "vol-1" 100)).mpr ⟨by simp, ?_⟩⟩
  simp [hasManagedIdTag, taggedRec, fsA]

/-! ## Claim C2 -/

/-- A volume set occupying all three creation slots, summing to the 200 GB
ceiling. -/
def vFull : Volume :=
  { vAtMax with managedVolumes :=
    [volRec "vol-1" 50, volRec "vol-2" 75, volRec "vol-3" 75] }

/-- A volume set whose recorded size (250 GB) already strictly exceeds the
200 GB ceiling. -/
def vOver : Volume :=
  { vAtMax with managedVolumes := [volRec "vol-1" 150, volRec "vol-2" 100] }

/-- Claim C2 (counterexample): with `managedVolumeSizeGb() = 200 =
maxLogicalSizeGb` but only two of three creation slots used, a grow
attempt does not fail with `CapacityExceeded`: it succeeds, and issues
remote calls including a volume creation.  The size pre-check in the
source compares with `>`, not `>=`. -/
theorem C2_counterexample :
    managedVolumeSizeGb vAtMax = vAtMax.maxLogicalSizeGb ∧
    (vAtMax.managedVolumes.length : Int) < vAtMax.maxCreatedVolumes ∧
    (GrowVolume vAtMax oAllOk devFsFree "t0" 0).1 = .ok () ∧
    (GrowVolume vAtMax oAllOk devFsFree "t0" 0).2.2.any ApiCall.isCreate = true :=
  ⟨by decide, by decide, rfl, by decide⟩

/-- Claim C2 (amended): provided the increment calculation passes, a grow
attempt fails with the capacity-exceeded pre-check errors — without any
remote call and leaving `ManagedVolumes` unchanged — when
`managedVolumeSizeGb()` strictly exceeds `maxLogicalSizeGb`, or when
`len(ManagedVolumes) = maxCreatedVolumes`. -/
theorem C2_amended (v : Volume) (o : Ec2Responses) (devFs : String → StatOutcome)
    (now : String) (divZeroVal sizeInc : Int)
    (hc : calculateSizeIncreasePerVolume v divZeroVal = .ok sizeInc)
    (h : managedVolumeSizeGb v > v.maxLogicalSizeGb ∨
         (v.managedVolumes.length : Int) = v.maxCreatedVolumes) :
    ((GrowVolume v o devFs now divZeroVal).1 =
        .error (.msg (maxSizeExceededMsg v.maxLogicalSizeGb (managedVolumeSizeGb v))) ∨
     (GrowVolume v o devFs now divZeroVal).1 =
        .error (.msg (maxCreatedReachedMsg v.maxCreatedVolumes v.managedVolumes.length))) ∧
    (GrowVolume v o devFs now divZeroVal).2.2 = [] ∧
    (GrowVolume v o devFs now divZeroVal).2.1.managedVolumes = v.managedVolumes := by
  simp only [GrowVolume, hc]
  by_cases hs : managedVolumeSizeGb v > v.maxLogicalSizeGb
  · rw [run_size_exceeded v o devFs now sizeInc hs]
    exact ⟨Or.inl rfl, rfl, rfl⟩
  · have hlen : (v.managedVolumes.length : Int) = v.maxCreatedVolumes :=
      h.resolve_left hs
    rw [run_count_reached v o devFs now sizeInc hs hlen]
    exact ⟨Or.inr rfl, rfl, rfl⟩

theorem C2_amended_witness :
    ((GrowVolume vFull oAllOk devFsFree "t1" 0).1 =
        .error (.msg (maxSizeExceededMsg 200 200)) ∨
     (GrowVolume vFull oAllOk devFsFree "t1" 0).1 =
        .error (.msg (maxCreatedReachedMsg 3 3))) ∧
    (GrowVolume vFull oAllOk devFsFree "t1" 0).2.2 = [] ∧
    (GrowVolume vFull oAllOk devFsFree "t1" 0).2.1.managedVolumes =
      vFull.managedVolumes :=
  C2_amended vFull oAllOk devFsFree "t1" 0 75 rfl (Or.inr (by decide))

/-! ## Claim C4 -/

/-- Claim C4 (counterexample): the claimed invariant
`sum(sizes) ≤ maxLogicalSizeGb` is not preserved by `growVolume`: from a
state satisfying it (200 ≤ 200), a successful grow appends 75 GB more and
leaves the sum at 275 against a 200 GB ceiling. -/
theorem C4_counterexample :
    managedVolumeSizeGb vAtMax ≤ vAtMax.maxLogicalSizeGb ∧
    (GrowVolume vAtMax oAllOk devFsFree "t2" 0).1 = .ok () ∧
    managedVolumeSizeGb (GrowVolume vAtMax oAllOk devFsFree "t2" 0).2.1 = 275 ∧
    (GrowVolume vAtMax oAllOk devFsFree "t2" 0).2.1.maxLogicalSizeGb = 200 ∧
    ¬ managedVolumeSizeGb (GrowVolume vAtMax oAllOk devFsFree "t2" 0).2.1 ≤
        (GrowVolume vAtMax oAllOk devFsFree "t2" 0).2.1.maxLogicalSizeGb :=
  ⟨by decide, rfl, by decide, rfl, by decide⟩

/-- Claim C4 (amended): what the code guarantees is only the entry check —
whenever the recorded sum already strictly exceeds `maxLogicalSizeGb`,
both `growVolume` and `createVolume` abort with an error before issuing
any remote call and leave `ManagedVolumes` unchanged; there is no
post-condition keeping the sum at or under the ceiling after a successful
grow. -/
theorem C4_amended (v : Volume) (o : Ec2Responses) (devFs : String → StatOutcome)
    (now : String) (divZeroVal : Int)
    (h : managedVolumeSizeGb v > v.maxLogicalSizeGb) :
    ((∃ e, (GrowVolume v o devFs now divZeroVal).1 = .error e) ∧
     (GrowVolume v o devFs now divZeroVal).2.2 = [] ∧
     (GrowVolume v o devFs now divZeroVal).2.1.managedVolumes = v.managedVolumes) ∧
    ((∃ e, (CreateVolume v o devFs now).1 = .error e) ∧
     (CreateVolume v o devFs now).2.2 = [] ∧
     (CreateVolume v o devFs now).2.1.managedVolumes = v.managedVolumes) := by
  constructor
  · simp only [GrowVolume]
    cases hc : calculateSizeIncreasePerVolume v divZeroVal with
    | error e => exact ⟨⟨e, rfl⟩, rfl, rfl⟩
    | ok inc =>
      dsimp only
      rw [run_size_exceeded v o devFs now inc h]
      exact ⟨⟨_, rfl⟩, rfl, rfl⟩
  · simp only [CreateVolume]
    rw [run_size_exceeded v o devFs now v.initialSizeGb h]
    exact ⟨⟨_, rfl⟩, rfl, rfl⟩

theorem C4_amended_witness :
    ((∃ e, (GrowVolume vOver oAllOk devFsFree "t3" 0).1 = .error e) ∧
     (GrowVolume vOver oAllOk devFsFree "t3" 0).2.2 = [] ∧
     (GrowVolume vOver oAllOk devFsFree "t3" 0).2.1.managedVolumes =
       vOver.managedVolumes) ∧
    ((∃ e, (CreateVolume vOver oAllOk devFsFree "t3").1 = .error e) ∧
     (CreateVolume vOver oAllOk devFsFree "t3").2.2 = [] ∧
     (CreateVolume vOver oAllOk devFsFree "t3").2.1.managedVolumes =
       vOver.managedVolumes) :=
  C4_amended vOver oAllOk devFsFree "t3" 0 (by decide)

/-! ## Claim C6 -/

/-- Claim C6: when the pre-checks pass, the engine issues a fresh
describe-volumes query for everything attached to the host; if the
observed count exceeds `maxAttachedVolumes` the attempt aborts with the
attached-capacity error, the only remote call in the trace is that query
(in particular, no create call), and the state is unchanged. -/
theorem C6_fresh_capacity_probe (v : Volume) (o : Ec2Responses)
    (devFs : String → StatOutcome) (now : String) (sizeGb : Int)
    (vols : List AwsVolume)
    (h1 : ¬ managedVolumeSizeGb v > v.maxLogicalSizeGb)
    (h2 : (v.managedVolumes.length : Int) ≠ v.maxCreatedVolumes)
    (h3 : o.describeRes = .ok vols)
    (h4 : (vols.length : Int) > v.maxAttachedVolumes) :
    createAndAttachEbsVolume v o devFs now sizeGb =
      (.error (.msg (maxAttachedExceededMsg v.maxAttachedVolumes vols.length)),
       v, [.describeVolumes v.host.instanceId]) ∧
    ∀ c ∈ (createAndAttachEbsVolume v o devFs now sizeGb).2.2,
      c.isCreate = false := by
  have hr := run_attached_exceeded v o devFs now sizeGb vols h1 h2 h3 h4
  refine ⟨hr, ?_⟩
  rw [hr]
  intro c hc
  simp only [List.mem_singleton] at hc
  rw [hc]
  rfl

/-- The `vBelow` state with room for only one attached volume. -/
def vBelowTight : Volume := { vBelow with maxAttachedVolumes := 1 }

/-- An environment reporting two volumes already attached to the host. -/
def oTwoAttached : Ec2Responses :=
  { oAllOk with describeRes := .ok [volRec "vol-ext1" 8, volRec "vol-ext2" 8] }

theorem C6_fresh_capacity_probe_witness :
    createAndAttachEbsVolume vBelowTight oTwoAttached devFsFree "t4" 75 =
      (.error (.msg (maxAttachedExceededMsg 1 2)),
       vBelowTight, [.describeVolumes "i-1"]) ∧
    ∀ c ∈ (createAndAttachEbsVolume vBelowTight oTwoAttached devFsFree "t4" 75).2.2,
      c.isCreate = false :=
  C6_fresh_capacity_probe vBelowTight oTwoAttached devFsFree "t4" 75
    [volRec "vol-ext1" 8, volRec "vol-ext2" 8]
    (by decide) (by decide) rfl (by decide)

/-! ## Claim C1 -/

/-- The attempt reaches the append to `ManagedVolumes`: both pre-checks
pass, the fresh capacity probe succeeds within the ceiling, a device slot
is free, and the create, availability-wait, and attach calls all
succeed. -/
def reachesAppend (v : Volume) (o : Ec2Responses)
    (devFs : String → StatOutcome) : Prop :=
  ¬ managedVolumeSizeGb v > v.maxLogicalSizeGb ∧
  (v.managedVolumes.length : Int) ≠ v.maxCreatedVolumes ∧
  (∃ vols, o.describeRes = Except.ok vols ∧
    ¬ (vols.length : Int) > v.maxAttachedVolumes) ∧
  (∃ d, getNextLogicalDevice devFs = Except.ok d) ∧
  (∃ vol, o.createRes = Except.ok vol) ∧
  o.waitRes = Except.ok () ∧
  o.attachRes = Except.ok ()

/-- Claim C1 (amended): the append to `ManagedVolumes` happens exactly when
create, availability-wait, and attach have all succeeded — before the
delete-on-termination mark.  If any earlier step fails, the attempt
returns an error with `ManagedVolumes` unchanged; but when the
delete-on-termination mark fails, an error is returned with the record
already appended (the source appends before issuing the mark and does not
undo it). -/
theorem C1_append_commit_point (v : Volume) (o : Ec2Responses)
    (devFs : String → StatOutcome) (now : String) (sizeGb : Int) :
    (¬ reachesAppend v o devFs →
      (createAndAttachEbsVolume v o devFs now sizeGb).2.1.managedVolumes =
        v.managedVolumes ∧
      ∃ e, (createAndAttachEbsVolume v o devFs now sizeGb).1 = .error e) ∧
    (reachesAppend v o devFs →
      ∃ vol, o.createRes = .ok vol ∧
        (createAndAttachEbsVolume v o devFs now sizeGb).2.1.managedVolumes =
          v.managedVolumes ++ [createVolumeOutputToVolume vol]) ∧
    (reachesAppend v o devFs → ∀ em, o.modifyRes = .error em →
      ∃ e, (createAndAttachEbsVolume v o devFs now sizeGb).1 = .error e) := by
  refine ⟨?_, ?_, ?_⟩
  · intro hn
    by_cases h1 : managedVolumeSizeGb v > v.maxLogicalSizeGb
    · rw [run_size_exceeded v o devFs now sizeGb h1]
      exact ⟨rfl, _, rfl⟩
    by_cases h2 : (v.managedVolumes.length : Int) = v.maxCreatedVolumes
    · rw [run_count_reached v o devFs now sizeGb h1 h2]
      exact ⟨rfl, _, rfl⟩
    cases h3 : o.describeRes with
    | error e =>
      rw [run_describe_error v o devFs now sizeGb e h1 h2 h3]
      exact ⟨rfl, _, rfl⟩
    | ok vols =>
      by_cases h4 : (vols.length : Int) > v.maxAttachedVolumes
      · rw [run_attached_exceeded v o devFs now sizeGb vols h1 h2 h3 h4]
        exact ⟨rfl, _, rfl⟩
      cases h5 : getNextLogicalDevice devFs with
      | error e =>
        rw [run_device_error v o devFs now sizeGb vols e h1 h2 h3 h4 h5]
        exact ⟨rfl, _, rfl⟩
      | ok device =>
        cases h6 : o.createRes with
        | error e =>
          rw [run_create_error v o devFs now sizeGb vols device e h1 h2 h3 h4 h5 h6]
          exact ⟨rfl, _, rfl⟩
        | ok vol =>
          cases h7 : o.waitRes with
          | error e =>
            rw [run_wait_error v o devFs now sizeGb vols device vol e h1 h2 h3 h4 h5 h6 h7]
            refine ⟨rfl, ?_⟩
            cases hrb : (removeVolume o.rollback vol.volumeId).1 with
            | some e2 => exact ⟨.join [e, e2], rfl⟩
            | none => exact ⟨e, rfl⟩
          | ok u =>
            cases u
            cases h8 : o.attachRes with
            | error e =>
              rw [run_attach_error v o devFs now sizeGb vols device vol e h1 h2 h3 h4 h5 h6 h7 h8]
              refine ⟨rfl, ?_⟩
              cases hrb : (removeVolume o.rollback vol.volumeId).1 with
              | some e2 => exact ⟨.join [e, e2], rfl⟩
              | none => exact ⟨e, rfl⟩
            | ok u2 =>
              cases u2
              exact absurd ⟨h1, h2, ⟨vols, h3, h4⟩, ⟨device, h5⟩,
                ⟨vol, h6⟩, h7, h8⟩ hn
  · rintro ⟨h1, h2, ⟨vols, h3, h4⟩, ⟨device, h5⟩, ⟨vol, h6⟩, h7, h8⟩
    refine ⟨vol, h6, ?_⟩
    cases h9 : o.modifyRes with
    | error e =>
      rw [run_modify_error v o devFs now sizeGb vols device vol e h1 h2 h3 h4 h5 h6 h7 h8 h9]
    | ok u =>
      cases u
      cases h10 : o.localWaitRes with
      | error e =>
        rw [run_local_wait_error v o devFs now sizeGb vols device vol e h1 h2 h3 h4 h5 h6 h7 h8 h9 h10]
      | ok u2 =>
        cases u2
        rw [run_success v o devFs now sizeGb vols device vol h1 h2 h3 h4 h5 h6 h7 h8 h9 h10]
  · rintro ⟨h1, h2, ⟨vols, h3, h4⟩, ⟨device, h5⟩, ⟨vol, h6⟩, h7, h8⟩ em h9
    rw [run_modify_error v o devFs now sizeGb vols device vol em h1 h2 h3 h4 h5 h6 h7 h8 h9]
    cases hrb : (removeVolume o.rollback vol.volumeId).1 with
    | some e2 => exact ⟨.join [em, e2], rfl⟩
    | none => exact ⟨em, rfl⟩

/-- An environment failing only at the delete-on-termination mark. -/
def oModFail : Ec2Responses :=
  { oAllOk with modifyRes := .error (.msg "modify failed") }

/-- Claim C1 (counterexample): when the delete-on-termination mark fails
after create, wait, and attach succeeded, the attempt returns an error,
yet `ManagedVolumes` has grown by the new record — the claimed
"no partial append on every failing step among the four" is violated. -/
theorem C1_counterexample :
    (createAndAttachEbsVolume vBelow oModFail devFsFree "t5" 75).1 =
      .error (.msg "modify failed") ∧
    (createAndAttachEbsVolume vBelow oModFail devFsFree "t5" 75).2.1.managedVolumes =
      vBelow.managedVolumes ++ [volRec "vol-new" 75] ∧
    vBelow.managedVolumes ++ [volRec "vol-new" 75] ≠ vBelow.managedVolumes :=
  ⟨rfl, rfl, by decide⟩

theorem C1_append_commit_point_witness :
    ∃ vol, oAllOk.createRes = .ok vol ∧
      (createAndAttachEbsVolume vBelow oAllOk devFsFree "t6" 75).2.1.managedVolumes =
        vBelow.managedVolumes ++ [createVolumeOutputToVolume vol] :=
  (C1_append_commit_point vBelow oAllOk devFsFree "t6" 75).2.1
    ⟨by decide, by decide, ⟨[], rfl, by decide⟩, ⟨"/dev/xvdba", rfl⟩,
     ⟨volRec "vol-new" 75, rfl⟩, rfl, rfl⟩

/-! ## Claim C5 -/

/-- Claim C5: rollback always attempts all three compensation steps in
order; its result is the join of exactly the errors of the steps that
failed, in step order; and at the availability-wait and attach call sites
of the protocol, a rollback error is joined after the original triggering
error — when rollback reports nothing, the original error is returned
alone. -/
theorem C5_rollback_best_effort (r : RollbackResponses) (volumeId : String) :
    (removeVolume r volumeId).2 =
      [.detachVolume volumeId, .waitVolumeAvailable volumeId,
       .deleteVolume volumeId] ∧
    (removeVolume r volumeId).1 =
      joinErrs ([r.detachRes, r.waitRes, r.deleteRes].filterMap
        (fun x => match x with | .error e => some e | .ok _ => none)) ∧
    (∀ (v : Volume) (o : Ec2Responses) (devFs : String → StatOutcome)
       (now : String) (sizeGb : Int) (vols : List AwsVolume)
       (device : String) (vol : AwsVolume) (e : Err),
      ¬ managedVolumeSizeGb v > v.maxLogicalSizeGb →
      (v.managedVolumes.length : Int) ≠ v.maxCreatedVolumes →
      o.describeRes = .ok vols → ¬ (vols.length : Int) > v.maxAttachedVolumes →
      getNextLogicalDevice devFs = .ok device →
      o.createRes = .ok vol →
      ((o.waitRes = .error e ∨ (o.waitRes = .ok () ∧ o.attachRes = .error e)) →
        (((removeVolume o.rollback vol.volumeId).1 = none →
           (createAndAttachEbsVolume v o devFs now sizeGb).1 = .error e) ∧
         (∀ e2, (removeVolume o.rollback vol.volumeId).1 = some e2 →
           (createAndAttachEbsVolume v o devFs now sizeGb).1 =
             .error (.join [e, e2]))))) := by
  refine ⟨rfl, ?_, ?_⟩
  · rcases r with ⟨d, w, del⟩
    cases d <;> cases w <;> cases del <;> rfl
  · intro v o devFs now sizeGb vols device vol e h1 h2 h3 h4 h5 h6 hsite
    rcases hsite with h7 | ⟨h7, h8⟩
    · rw [run_wait_error v o devFs now sizeGb vols device vol e h1 h2 h3 h4 h5 h6 h7]
      constructor
      · intro hrb
        rw [hrb]
      · intro e2 hrb
        rw [hrb]
    · rw [run_attach_error v o devFs now sizeGb vols device vol e h1 h2 h3 h4 h5 h6 h7 h8]
      constructor
      · intro hrb
        rw [hrb]
      · intro e2 hrb
        rw [hrb]

/-- Compensation responses where every rollback step fails. -/
def rAllFail : RollbackResponses :=
  { detachRes := .error (.msg "detach failed"),
    waitRes := .error (.msg "wait failed"),
    deleteRes := .error (.msg "delete failed") }

/-- An environment failing at attach, with every rollback step failing
too. -/
def oAttachFail : Ec2Responses :=
  { oAllOk with attachRes := .error (.msg "attach failed"), rollback := rAllFail }

theorem C5_rollback_best_effort_witness :
    (removeVolume rAllFail "vol-x").2 =
      [.detachVolume "vol-x", .waitVolumeAvailable "vol-x",
       .deleteVolume "vol-x"] ∧
    (removeVolume rAllFail "vol-x").1 =
      some (.join [.msg "detach failed", .msg "wait failed", .msg "delete failed"]) ∧
    (createAndAttachEbsVolume vBelow oAttachFail devFsFree "t7" 75).1 =
      .error (.join [.msg "attach failed",
        .join [.msg "detach failed", .msg "wait failed", .msg "delete failed"]]) := by
  refine ⟨(C5_rollback_best_effort rAllFail "vol-x").1,
    ((C5_rollback_best_effort rAllFail "vol-x").2.1).trans rfl, ?_⟩
  exact ((C5_rollback_best_effort rAllFail "vol-x").2.2 vBelow oAttachFail
    devFsFree "t7" 75 [] "/dev/xvdba" (volRec "vol-new" 75)
    (.msg "attach failed") (by decide) (by decide) rfl (by decide) rfl rfl
    (Or.inr ⟨rfl, rfl⟩)).2
    (.join [.msg "detach failed", .msg "wait failed", .msg "delete failed"]) rfl

end EbsAutoscale
